import Mathlib

/-!
Verification of the Alarm Configuration & Threshold Resolution Engine
(Kinesis domain alarm factory and the Kinesis Firehose monitoring unit).

The six operations of `KinesisAlarmFactory` and the `KinesisFirehoseMonitoring`
constructor are translated from the TypeScript sources.  The central
`AlarmFactory` (imported by the sources from `../../alarm` but not itself part
of them) and the `Monitoring` base class are modelled from the specification;
each such definition carries a doc comment starting with `Modelled from the
spec:`.
-/

set_option autoImplicit false

namespace CdkMonitoring

/-- A JavaScript number: a finite rational or one of the non-finite values
`NaN`, `Infinity`, `-Infinity`. -/
inductive JSNumber where
  | finite (q : ℚ)
  | nan
  | posInfinity
  | negInfinity
  deriving DecidableEq, Repr

/-- `Number.isFinite`. -/
def JSNumber.isFinite : JSNumber → Bool
  | .finite _ => true
  | _ => false

/-- Template-string interpolation of a JS number.  Integral values render as
decimal digits exactly as in JavaScript; non-integral finite values are
approximated by a `num/den` rendering (no claim depends on them). -/
def JSNumber.render : JSNumber → String
  | .finite q => if q.den = 1 then toString q.num else toString q.num ++ "/" ++ toString q.den
  | .nan => "NaN"
  | .posInfinity => "Infinity"
  | .negInfinity => "-Infinity"

/-- `aws-cloudwatch` comparison operators used by the sources. -/
inductive ComparisonOperator where
  | GREATER_THAN_THRESHOLD
  | GREATER_THAN_OR_EQUAL_TO_THRESHOLD
  | LESS_THAN_THRESHOLD
  | LESS_THAN_OR_EQUAL_TO_THRESHOLD
  deriving DecidableEq, Repr

/-- `aws-cloudwatch` missing-data policies. -/
inductive TreatMissingData where
  | BREACHING
  | NOT_BREACHING
  | IGNORE
  | MISSING
  deriving DecidableEq, Repr

/-- Modelled from the spec: `CustomAlarmThreshold` (the sources import it from
`../../alarm`, which is outside the given sources).  Fields follow section 3 of
the spec: optional overrides for comparison operator, missing-data treatment,
naming, description, dedupe key, window sizes, plus a free-form disambiguator. -/
structure CustomAlarmThreshold where
  comparisonOperatorOverride : Option ComparisonOperator := none
  treatMissingDataOverride : Option TreatMissingData := none
  disambiguator : Option String := none
  alarmNameOverride : Option String := none
  alarmDescriptionOverride : Option String := none
  alarmDedupeStringOverride : Option String := none
  evaluationPeriods : Option ℕ := none
  datapointsToAlarm : Option ℕ := none
  deriving DecidableEq, Repr

/-- `DataFreshnessThreshold` from the sources. -/
structure DataFreshnessThreshold extends CustomAlarmThreshold where
  ageOfRecordThreshold : JSNumber
  deriving DecidableEq, Repr

/-- `MaxIteratorAgeThreshold` from the sources. -/
structure MaxIteratorAgeThreshold extends CustomAlarmThreshold where
  maxAgeInMillis : JSNumber
  deriving DecidableEq, Repr

/-- `RecordsThrottledThreshold` from the sources. -/
structure RecordsThrottledThreshold extends CustomAlarmThreshold where
  maxRecordsThrottledThreshold : JSNumber
  deriving DecidableEq, Repr

/-- `RecordsFailedThreshold` from the sources. -/
structure RecordsFailedThreshold extends CustomAlarmThreshold where
  maxRecordsFailedThreshold : JSNumber
  deriving DecidableEq, Repr

/-- A metric reference; opaque to the resolution engine. -/
structure MetricWithAlarmSupport where
  metricId : String
  deriving DecidableEq, Repr

/-- The shape of the object literal each `KinesisAlarmFactory` operation passes
to `AlarmFactory.addAlarm`.  JavaScript object-literal semantics: later entries
win, and `...props` contributes only the `CustomAlarmThreshold` fields, none of
which collide with the keys written before the spread except `disambiguator`,
which is overwritten by the entry written after the spread. -/
structure AddAlarmProps where
  treatMissingData : TreatMissingData
  comparisonOperator : ComparisonOperator
  comparisonOperatorOverride : Option ComparisonOperator
  treatMissingDataOverride : Option TreatMissingData
  alarmNameOverride : Option String
  alarmDescriptionOverride : Option String
  alarmDedupeStringOverride : Option String
  evaluationPeriods : Option ℕ
  datapointsToAlarm : Option ℕ
  disambiguator : Option String
  threshold : JSNumber
  alarmNameSuffix : String
  alarmDescription : String
  alarmDedupeStringSuffix : Option String
  deriving DecidableEq, Repr

/-- The argument `addIteratorMaxAgeAlarm` hands to `alarmFactory.addAlarm`
(object literal of the source, spread resolved field by field). -/
def addIteratorMaxAgeAlarmProps (props : MaxIteratorAgeThreshold)
    (disambiguator : Option String) : AddAlarmProps :=
  { treatMissingData := props.treatMissingDataOverride.getD TreatMissingData.MISSING
    comparisonOperator :=
      props.comparisonOperatorOverride.getD ComparisonOperator.GREATER_THAN_THRESHOLD
    comparisonOperatorOverride := props.comparisonOperatorOverride
    treatMissingDataOverride := props.treatMissingDataOverride
    alarmNameOverride := props.alarmNameOverride
    alarmDescriptionOverride := props.alarmDescriptionOverride
    alarmDedupeStringOverride := props.alarmDedupeStringOverride
    evaluationPeriods := props.evaluationPeriods
    datapointsToAlarm := props.datapointsToAlarm
    disambiguator := disambiguator
    threshold := props.maxAgeInMillis
    alarmNameSuffix := "Iterator-Age-Max"
    alarmDescription := "Iterator Max Age is too high."
    alarmDedupeStringSuffix := some "AnyDataStreamIteratorMaxAge" }

/-- The argument `addOldAgeOfRecordAlarm` hands to `alarmFactory.addAlarm`. -/
def addOldAgeOfRecordAlarmProps (props : DataFreshnessThreshold)
    (disambiguator : Option String) : AddAlarmProps :=
  { treatMissingData := props.treatMissingDataOverride.getD TreatMissingData.MISSING
    comparisonOperator :=
      props.comparisonOperatorOverride.getD ComparisonOperator.GREATER_THAN_THRESHOLD
    comparisonOperatorOverride := props.comparisonOperatorOverride
    treatMissingDataOverride := props.treatMissingDataOverride
    alarmNameOverride := props.alarmNameOverride
    alarmDescriptionOverride := props.alarmDescriptionOverride
    alarmDedupeStringOverride := props.alarmDedupeStringOverride
    evaluationPeriods := props.evaluationPeriods
    datapointsToAlarm := props.datapointsToAlarm
    disambiguator := disambiguator
    threshold := props.ageOfRecordThreshold
    alarmNameSuffix := "Record-Max-Age"
    alarmDescription := "Max Age of Record in firehose is too high."
    alarmDedupeStringSuffix := some "MaxAgeOfRecordExceededInDeliveryStream" }

/-- The argument `addPutRecordsThrottledAlarm` hands to `alarmFactory.addAlarm`;
its description interpolates the threshold. -/
def addPutRecordsThrottledAlarmProps (props : RecordsThrottledThreshold)
    (disambiguator : Option String) : AddAlarmProps :=
  { treatMissingData := props.treatMissingDataOverride.getD TreatMissingData.NOT_BREACHING
    comparisonOperator :=
      props.comparisonOperatorOverride.getD ComparisonOperator.GREATER_THAN_THRESHOLD
    comparisonOperatorOverride := props.comparisonOperatorOverride
    treatMissingDataOverride := props.treatMissingDataOverride
    alarmNameOverride := props.alarmNameOverride
    alarmDescriptionOverride := props.alarmDescriptionOverride
    alarmDedupeStringOverride := props.alarmDedupeStringOverride
    evaluationPeriods := props.evaluationPeriods
    datapointsToAlarm := props.datapointsToAlarm
    disambiguator := disambiguator
    threshold := props.maxRecordsThrottledThreshold
    alarmNameSuffix := "PutRecordsThrottled"
    alarmDescription := "Number of throttled PutRecords exceeded threshold of "
      ++ props.maxRecordsThrottledThreshold.render
    alarmDedupeStringSuffix := some "PutRecordsThrottled" }

/-- The argument `addPutRecordsFailedAlarm` hands to `alarmFactory.addAlarm`. -/
def addPutRecordsFailedAlarmProps (props : RecordsFailedThreshold)
    (disambiguator : Option String) : AddAlarmProps :=
  { treatMissingData := props.treatMissingDataOverride.getD TreatMissingData.NOT_BREACHING
    comparisonOperator :=
      props.comparisonOperatorOverride.getD ComparisonOperator.GREATER_THAN_THRESHOLD
    comparisonOperatorOverride := props.comparisonOperatorOverride
    treatMissingDataOverride := props.treatMissingDataOverride
    alarmNameOverride := props.alarmNameOverride
    alarmDescriptionOverride := props.alarmDescriptionOverride
    alarmDedupeStringOverride := props.alarmDedupeStringOverride
    evaluationPeriods := props.evaluationPeriods
    datapointsToAlarm := props.datapointsToAlarm
    disambiguator := disambiguator
    threshold := props.maxRecordsFailedThreshold
    alarmNameSuffix := "PutRecordsFailed"
    alarmDescription := "Number of failed PutRecords exceeded threshold of "
      ++ props.maxRecordsFailedThreshold.render
    alarmDedupeStringSuffix := some "PutRecordsFailed" }

/-- The argument `addProvisionedReadThroughputExceededAlarm` hands to
`alarmFactory.addAlarm`; the source requires the disambiguator and passes no
dedupe suffix. -/
def addProvisionedReadThroughputExceededAlarmProps (props : RecordsThrottledThreshold)
    (disambiguator : String) : AddAlarmProps :=
  { treatMissingData := props.treatMissingDataOverride.getD TreatMissingData.NOT_BREACHING
    comparisonOperator :=
      props.comparisonOperatorOverride.getD ComparisonOperator.GREATER_THAN_THRESHOLD
    comparisonOperatorOverride := props.comparisonOperatorOverride
    treatMissingDataOverride := props.treatMissingDataOverride
    alarmNameOverride := props.alarmNameOverride
    alarmDescriptionOverride := props.alarmDescriptionOverride
    alarmDedupeStringOverride := props.alarmDedupeStringOverride
    evaluationPeriods := props.evaluationPeriods
    datapointsToAlarm := props.datapointsToAlarm
    disambiguator := some disambiguator
    threshold := props.maxRecordsThrottledThreshold
    alarmNameSuffix := "ReadThroughputExceeded"
    alarmDescription :=
      "Number of records resulting in read throughput capacity throttling reached the threshold of "
      ++ props.maxRecordsThrottledThreshold.render ++ "."
    alarmDedupeStringSuffix := none }

/-- The argument `addProvisionedWriteThroughputExceededAlarm` hands to
`alarmFactory.addAlarm`; the source requires the disambiguator and passes no
dedupe suffix. -/
def addProvisionedWriteThroughputExceededAlarmProps (props : RecordsThrottledThreshold)
    (disambiguator : String) : AddAlarmProps :=
  { treatMissingData := props.treatMissingDataOverride.getD TreatMissingData.NOT_BREACHING
    comparisonOperator :=
      props.comparisonOperatorOverride.getD ComparisonOperator.GREATER_THAN_THRESHOLD
    comparisonOperatorOverride := props.comparisonOperatorOverride
    treatMissingDataOverride := props.treatMissingDataOverride
    alarmNameOverride := props.alarmNameOverride
    alarmDescriptionOverride := props.alarmDescriptionOverride
    alarmDedupeStringOverride := props.alarmDedupeStringOverride
    evaluationPeriods := props.evaluationPeriods
    datapointsToAlarm := props.datapointsToAlarm
    disambiguator := some disambiguator
    threshold := props.maxRecordsThrottledThreshold
    alarmNameSuffix := "WriteThroughputExceeded"
    alarmDescription :=
      "Number of records resulting in write throughput capacity throttling reached the threshold of "
      ++ props.maxRecordsThrottledThreshold.render ++ "."
    alarmDedupeStringSuffix := none }

/-- Error kinds of section 7 of the spec. -/
inductive AlarmError where
  | InvalidThresholdError
  | DuplicateAlarmNameError
  deriving DecidableEq, Repr

/-- A horizontal threshold line for charting: a value plus a label
(the spec's `annotation` record). -/
structure Annot where
  value : JSNumber
  label : String
  deriving DecidableEq, Repr

/-- The fully materialized engine output (spec section 3, `Alarm Definition`),
including its chart annotation record `annot`. -/
structure AlarmDefinition where
  metric : MetricWithAlarmSupport
  resolvedThreshold : JSNumber
  resolvedComparisonOperator : ComparisonOperator
  resolvedTreatMissingData : TreatMissingData
  name : String
  description : String
  dedupeKey : String
  annot : Annot
  deriving DecidableEq, Repr

/-- Modelled from the spec: the central Alarm Factory state — the resource
naming prefix supplied at creation and the names already registered in the
enclosing scope. -/
structure AlarmFactory where
  alarmScopeName : String
  registeredNames : List String
  deriving DecidableEq, Repr

/-- Modelled from the spec: name construction
`{resourceHumanOrFallbackName}-{alarmNameSuffix}{-disambiguator if present}`,
with `alarmNameOverride` as a full replacement when present.  Sanitization is
the identity on the identifier-safe inputs considered here. -/
def resolveAlarmName (scopeName : String) (p : AddAlarmProps) : String :=
  match p.alarmNameOverride with
  | some n => n
  | none =>
    scopeName ++ "-" ++ p.alarmNameSuffix ++
      (match p.disambiguator with
       | some d => "-" ++ d
       | none => "")

/-- Modelled from the spec: dedupe key is `alarmDedupeStringOverride` if
present, else the alarm-kind constant `alarmDedupeStringSuffix` with no
resource-specific component when the kind supplies one, else
`{resourceName}-{alarmNameSuffix}`. -/
def resolveDedupeKey (scopeName : String) (p : AddAlarmProps) : String :=
  match p.alarmDedupeStringOverride with
  | some s => s
  | none =>
    match p.alarmDedupeStringSuffix with
    | some suf => suf
    | none => scopeName ++ "-" ++ p.alarmNameSuffix

/-- Modelled from the spec: description is the alarm-kind template (already
carrying the interpolated threshold) unless `alarmDescriptionOverride` is set. -/
def resolveDescription (p : AddAlarmProps) : String :=
  p.alarmDescriptionOverride.getD p.alarmDescription

/-- Modelled from the spec: an explicit override on the Specification always
wins; otherwise the value supplied by the calling domain factory is used. -/
def resolveComparisonOperator (p : AddAlarmProps) : ComparisonOperator :=
  p.comparisonOperatorOverride.getD p.comparisonOperator

/-- Modelled from the spec: an explicit override on the Specification always
wins; otherwise the value supplied by the calling domain factory is used. -/
def resolveTreatMissingData (p : AddAlarmProps) : TreatMissingData :=
  p.treatMissingDataOverride.getD p.treatMissingData

/-- Modelled from the spec: `AlarmFactory.addAlarm` fails with
`InvalidThresholdError` when the threshold is not a finite number (before any
registration), fails with `DuplicateAlarmNameError` when the computed name
collides with an already-registered one, and otherwise registers the name and
returns the resolved Alarm Definition together with the updated factory. -/
def AlarmFactory.addAlarm (f : AlarmFactory) (metric : MetricWithAlarmSupport)
    (p : AddAlarmProps) : Except AlarmError (AlarmFactory × AlarmDefinition) :=
  if p.threshold.isFinite = false then
    .error .InvalidThresholdError
  else
    let name := resolveAlarmName f.alarmScopeName p
    if f.registeredNames.contains name then
      .error .DuplicateAlarmNameError
    else
      .ok ({ f with registeredNames := f.registeredNames ++ [name] },
        { metric := metric
          resolvedThreshold := p.threshold
          resolvedComparisonOperator := resolveComparisonOperator p
          resolvedTreatMissingData := resolveTreatMissingData p
          name := name
          description := resolveDescription p
          dedupeKey := resolveDedupeKey f.alarmScopeName p
          annot := { value := p.threshold, label := name } })

/-- The domain facade of the sources: a thin wrapper holding the central
factory. -/
structure KinesisAlarmFactory where
  alarmFactory : AlarmFactory
  deriving DecidableEq, Repr

/-- `KinesisAlarmFactory.addIteratorMaxAgeAlarm` from the sources: builds the
object literal and delegates to `alarmFactory.addAlarm`. -/
def KinesisAlarmFactory.addIteratorMaxAgeAlarm (k : KinesisAlarmFactory)
    (metric : MetricWithAlarmSupport) (props : MaxIteratorAgeThreshold)
    (disambiguator : Option String) :
    Except AlarmError (KinesisAlarmFactory × AlarmDefinition) :=
  match k.alarmFactory.addAlarm metric (addIteratorMaxAgeAlarmProps props disambiguator) with
  | .error e => .error e
  | .ok (f, a) => .ok ({ alarmFactory := f }, a)

/-- `KinesisAlarmFactory.addOldAgeOfRecordAlarm` from the sources. -/
def KinesisAlarmFactory.addOldAgeOfRecordAlarm (k : KinesisAlarmFactory)
    (metric : MetricWithAlarmSupport) (props : DataFreshnessThreshold)
    (disambiguator : Option String) :
    Except AlarmError (KinesisAlarmFactory × AlarmDefinition) :=
  match k.alarmFactory.addAlarm metric (addOldAgeOfRecordAlarmProps props disambiguator) with
  | .error e => .error e
  | .ok (f, a) => .ok ({ alarmFactory := f }, a)

/-- `KinesisAlarmFactory.addPutRecordsThrottledAlarm` from the sources. -/
def KinesisAlarmFactory.addPutRecordsThrottledAlarm (k : KinesisAlarmFactory)
    (metric : MetricWithAlarmSupport) (props : RecordsThrottledThreshold)
    (disambiguator : Option String) :
    Except AlarmError (KinesisAlarmFactory × AlarmDefinition) :=
  match k.alarmFactory.addAlarm metric (addPutRecordsThrottledAlarmProps props disambiguator) with
  | .error e => .error e
  | .ok (f, a) => .ok ({ alarmFactory := f }, a)

/-- `KinesisAlarmFactory.addPutRecordsFailedAlarm` from the sources. -/
def KinesisAlarmFactory.addPutRecordsFailedAlarm (k : KinesisAlarmFactory)
    (metric : MetricWithAlarmSupport) (props : RecordsFailedThreshold)
    (disambiguator : Option String) :
    Except AlarmError (KinesisAlarmFactory × AlarmDefinition) :=
  match k.alarmFactory.addAlarm metric (addPutRecordsFailedAlarmProps props disambiguator) with
  | .error e => .error e
  | .ok (f, a) => .ok ({ alarmFactory := f }, a)

/-- `KinesisAlarmFactory.addProvisionedReadThroughputExceededAlarm` from the
sources (required disambiguator). -/
def KinesisAlarmFactory.addProvisionedReadThroughputExceededAlarm (k : KinesisAlarmFactory)
    (metric : MetricWithAlarmSupport) (props : RecordsThrottledThreshold)
    (disambiguator : String) :
    Except AlarmError (KinesisAlarmFactory × AlarmDefinition) :=
  match k.alarmFactory.addAlarm metric
      (addProvisionedReadThroughputExceededAlarmProps props disambiguator) with
  | .error e => .error e
  | .ok (f, a) => .ok ({ alarmFactory := f }, a)

/-- `KinesisAlarmFactory.addProvisionedWriteThroughputExceededAlarm` from the
sources (required disambiguator). -/
def KinesisAlarmFactory.addProvisionedWriteThroughputExceededAlarm (k : KinesisAlarmFactory)
    (metric : MetricWithAlarmSupport) (props : RecordsThrottledThreshold)
    (disambiguator : String) :
    Except AlarmError (KinesisAlarmFactory × AlarmDefinition) :=
  match k.alarmFactory.addAlarm metric
      (addProvisionedWriteThroughputExceededAlarmProps props disambiguator) with
  | .error e => .error e
  | .ok (f, a) => .ok ({ alarmFactory := f }, a)

/-- The per-kind constants a domain facade supplies: default operator, default
missing-data policy, name suffix, description (template with the threshold
substituted) and optional dedupe suffix. -/
structure AlarmKindConstants where
  defaultComparisonOperator : ComparisonOperator
  defaultTreatMissingData : TreatMissingData
  alarmNameSuffix : String
  alarmDescription : String
  alarmDedupeStringSuffix : Option String
  deriving DecidableEq, Repr

/-- Modelled from the spec: the reference behaviour of a domain facade that
performs no precedence resolution of its own — it hands the unresolved
Specification plus the kind constants to the central Alarm Factory, which alone
applies override-before-default precedence. -/
def centralResolveAddAlarmProps (k : AlarmKindConstants) (threshold : JSNumber)
    (c : CustomAlarmThreshold) (disambiguator : Option String) : AddAlarmProps :=
  { treatMissingData := c.treatMissingDataOverride.getD k.defaultTreatMissingData
    comparisonOperator := c.comparisonOperatorOverride.getD k.defaultComparisonOperator
    comparisonOperatorOverride := c.comparisonOperatorOverride
    treatMissingDataOverride := c.treatMissingDataOverride
    alarmNameOverride := c.alarmNameOverride
    alarmDescriptionOverride := c.alarmDescriptionOverride
    alarmDedupeStringOverride := c.alarmDedupeStringOverride
    evaluationPeriods := c.evaluationPeriods
    datapointsToAlarm := c.datapointsToAlarm
    disambiguator := disambiguator
    threshold := threshold
    alarmNameSuffix := k.alarmNameSuffix
    alarmDescription := k.alarmDescription
    alarmDedupeStringSuffix := k.alarmDedupeStringSuffix }

/-- The alarm-request portion of `KinesisFirehoseMonitoringProps` from the
sources.  The `Record<string, …>` maps become association lists whose order is
the JavaScript insertion/iteration order; `useCreatedAlarms` records whether a
consumer callback was supplied. -/
structure KinesisFirehoseMonitoringProps where
  deliveryStreamName : String
  addDeliveryFreshnessAlarm : List (String × DataFreshnessThreshold) := []
  addRecordsThrottledAlarm : List (String × RecordsThrottledThreshold) := []
  useCreatedAlarms : Bool := false
  deriving DecidableEq, Repr

/-- The bookkeeping state of a `KinesisFirehoseMonitoring` instance: the domain
factory, the two per-family annotation collections, the created-alarms
collection of the `Monitoring` base (modelled from the spec: `addAlarm`
registers the definition with the unit's own created-alarms collection and
`createdAlarms()` reads it back), and the record of consumer invocations. -/
structure KinesisFirehoseMonitoring where
  kinesisAlarmFactory : KinesisAlarmFactory
  recordCountAnnotations : List Annot
  ageAnnotations : List Annot
  createdAlarmsList : List AlarmDefinition
  consumerCalls : List (List AlarmDefinition)
  deriving DecidableEq, Repr

/-- The first constructor loop of the sources: for each entry of
`addRecordsThrottledAlarm`, in order, create the alarm on the throttled-records
metric, push its annotation onto `recordCountAnnotations` and the alarm onto
the created-alarms collection; a failure aborts the whole construction. -/
def processRecordsThrottledAlarms (metric : MetricWithAlarmSupport) :
    KinesisFirehoseMonitoring → List (String × RecordsThrottledThreshold) →
    Except AlarmError KinesisFirehoseMonitoring
  | m, [] => .ok m
  | m, (disambiguator, alarmProps) :: rest =>
    match m.kinesisAlarmFactory.addPutRecordsThrottledAlarm metric alarmProps
        (some disambiguator) with
    | .error e => .error e
    | .ok (k, createdAlarm) =>
      processRecordsThrottledAlarms metric
        { m with
          kinesisAlarmFactory := k
          recordCountAnnotations := m.recordCountAnnotations ++ [createdAlarm.annot]
          createdAlarmsList := m.createdAlarmsList ++ [createdAlarm] }
        rest

/-- The second constructor loop of the sources: for each entry of
`addDeliveryFreshnessAlarm`, in order, create the alarm on the record-age
metric, push its annotation onto `ageAnnotations` and the alarm onto the
created-alarms collection. -/
def processDeliveryFreshnessAlarms (metric : MetricWithAlarmSupport) :
    KinesisFirehoseMonitoring → List (String × DataFreshnessThreshold) →
    Except AlarmError KinesisFirehoseMonitoring
  | m, [] => .ok m
  | m, (disambiguator, alarmProps) :: rest =>
    match m.kinesisAlarmFactory.addOldAgeOfRecordAlarm metric alarmProps
        (some disambiguator) with
    | .error e => .error e
    | .ok (k, createdAlarm) =>
      processDeliveryFreshnessAlarms metric
        { m with
          kinesisAlarmFactory := k
          ageAnnotations := m.ageAnnotations ++ [createdAlarm.annot]
          createdAlarmsList := m.createdAlarmsList ++ [createdAlarm] }
        rest

/-- The `KinesisFirehoseMonitoring` constructor, from the sources: empty
collections, the records-throttled loop, the delivery-freshness loop, then
`props.useCreatedAlarms?.consume(this.createdAlarms())` — one consumer call
with the full created-alarms collection when a consumer was supplied, none
otherwise. -/
def KinesisFirehoseMonitoring.construct (alarmFactory : AlarmFactory)
    (throttledRecordsMetric maxAgeofRecordsMetric : MetricWithAlarmSupport)
    (props : KinesisFirehoseMonitoringProps) :
    Except AlarmError KinesisFirehoseMonitoring :=
  let m0 : KinesisFirehoseMonitoring :=
    { kinesisAlarmFactory := { alarmFactory := alarmFactory }
      recordCountAnnotations := []
      ageAnnotations := []
      createdAlarmsList := []
      consumerCalls := [] }
  match processRecordsThrottledAlarms throttledRecordsMetric m0
      props.addRecordsThrottledAlarm with
  | .error e => .error e
  | .ok m1 =>
    match processDeliveryFreshnessAlarms maxAgeofRecordsMetric m1
        props.addDeliveryFreshnessAlarm with
    | .error e => .error e
    | .ok m2 =>
      .ok { m2 with
            consumerCalls :=
              if props.useCreatedAlarms then m2.consumerCalls ++ [m2.createdAlarmsList]
              else m2.consumerCalls }

/-- Reference: thread the central factory through a list of alarm-creation
steps, collecting the created definitions in order (first failure aborts). -/
def createAlarmSequence {α : Type}
    (step : AlarmFactory → α → Except AlarmError (AlarmFactory × AlarmDefinition)) :
    AlarmFactory → List α → Except AlarmError (AlarmFactory × List AlarmDefinition)
  | f, [] => .ok (f, [])
  | f, e :: rest =>
    match step f e with
    | .error err => .error err
    | .ok (f', a) =>
      match createAlarmSequence step f' rest with
      | .error err => .error err
      | .ok (f'', as) => .ok (f'', a :: as)

/-- One records-throttled creation step against a fixed metric. -/
def recordsThrottledStep (metric : MetricWithAlarmSupport) (f : AlarmFactory)
    (e : String × RecordsThrottledThreshold) :
    Except AlarmError (AlarmFactory × AlarmDefinition) :=
  f.addAlarm metric (addPutRecordsThrottledAlarmProps e.2 (some e.1))

/-- One delivery-freshness creation step against a fixed metric. -/
def deliveryFreshnessStep (metric : MetricWithAlarmSupport) (f : AlarmFactory)
    (e : String × DataFreshnessThreshold) :
    Except AlarmError (AlarmFactory × AlarmDefinition) :=
  f.addAlarm metric (addOldAgeOfRecordAlarmProps e.2 (some e.1))

/-- Kind constants of the iterator-max-age operation. -/
def iteratorMaxAgeKind : AlarmKindConstants :=
  { defaultComparisonOperator := .GREATER_THAN_THRESHOLD
    defaultTreatMissingData := .MISSING
    alarmNameSuffix := "Iterator-Age-Max"
    alarmDescription := "Iterator Max Age is too high."
    alarmDedupeStringSuffix := some "AnyDataStreamIteratorMaxAge" }

/-- Kind constants of the old-age-of-record (delivery-freshness) operation. -/
def oldAgeOfRecordKind : AlarmKindConstants :=
  { defaultComparisonOperator := .GREATER_THAN_THRESHOLD
    defaultTreatMissingData := .MISSING
    alarmNameSuffix := "Record-Max-Age"
    alarmDescription := "Max Age of Record in firehose is too high."
    alarmDedupeStringSuffix := some "MaxAgeOfRecordExceededInDeliveryStream" }

/-- Kind constants of the put-records-throttled operation; the description
template carries the substituted threshold. -/
def putRecordsThrottledKind (threshold : JSNumber) : AlarmKindConstants :=
  { defaultComparisonOperator := .GREATER_THAN_THRESHOLD
    defaultTreatMissingData := .NOT_BREACHING
    alarmNameSuffix := "PutRecordsThrottled"
    alarmDescription := "Number of throttled PutRecords exceeded threshold of " ++ threshold.render
    alarmDedupeStringSuffix := some "PutRecordsThrottled" }

/-- Kind constants of the put-records-failed operation. -/
def putRecordsFailedKind (threshold : JSNumber) : AlarmKindConstants :=
  { defaultComparisonOperator := .GREATER_THAN_THRESHOLD
    defaultTreatMissingData := .NOT_BREACHING
    alarmNameSuffix := "PutRecordsFailed"
    alarmDescription := "Number of failed PutRecords exceeded threshold of " ++ threshold.render
    alarmDedupeStringSuffix := some "PutRecordsFailed" }

/-- Kind constants of the provisioned-read-throughput-exceeded operation
(no dedupe suffix). -/
def provisionedReadThroughputKind (threshold : JSNumber) : AlarmKindConstants :=
  { defaultComparisonOperator := .GREATER_THAN_THRESHOLD
    defaultTreatMissingData := .NOT_BREACHING
    alarmNameSuffix := "ReadThroughputExceeded"
    alarmDescription :=
      "Number of records resulting in read throughput capacity throttling reached the threshold of "
      ++ threshold.render ++ "."
    alarmDedupeStringSuffix := none }

/-- Kind constants of the provisioned-write-throughput-exceeded operation
(no dedupe suffix). -/
def provisionedWriteThroughputKind (threshold : JSNumber) : AlarmKindConstants :=
  { defaultComparisonOperator := .GREATER_THAN_THRESHOLD
    defaultTreatMissingData := .NOT_BREACHING
    alarmNameSuffix := "WriteThroughputExceeded"
    alarmDescription :=
      "Number of records resulting in write throughput capacity throttling reached the threshold of "
      ++ threshold.render ++ "."
    alarmDedupeStringSuffix := none }

/-- The created definition of a domain-operation result, when it succeeded. -/
def alarmOfResult :
    Except AlarmError (KinesisAlarmFactory × AlarmDefinition) → Option AlarmDefinition
  | .ok (_, a) => some a
  | .error _ => none

/-- Whether a central-factory result is a success. -/
def addAlarmSucceeds : Except AlarmError (AlarmFactory × AlarmDefinition) → Bool
  | .ok _ => true
  | .error _ => false

/-- Whether the created definition's description contains the given substring. -/
def descriptionContains (sub : String) : Option AlarmDefinition → Bool
  | some a => decide (sub.data <:+: a.description.data)
  | none => false

/-- Sample metric for concrete scenarios. -/
def sampleThrottledMetric : MetricWithAlarmSupport := { metricId := "ThrottledRecords" }

/-- Sample metric for concrete scenarios. -/
def sampleFreshnessMetric : MetricWithAlarmSupport := { metricId := "DeliveryToS3.DataFreshness" }

/-- Records-throttled Specification with threshold 50 and no overrides. -/
def spec50 : RecordsThrottledThreshold := { maxRecordsThrottledThreshold := JSNumber.finite 50 }

/-- Delivery-freshness Specification with threshold 3600 and no overrides. -/
def fresh3600 : DataFreshnessThreshold := { ageOfRecordThreshold := JSNumber.finite 3600 }

/-- A fresh central factory for the resource "OrdersStream". -/
def ordersFactory : AlarmFactory := { alarmScopeName := "OrdersStream", registeredNames := [] }

/-- The definition produced for `spec50` on "OrdersStream" with the given
disambiguator. -/
def ordersThrottledAlarmAt (d : String) : AlarmDefinition :=
  { metric := sampleThrottledMetric
    resolvedThreshold := JSNumber.finite 50
    resolvedComparisonOperator := .GREATER_THAN_THRESHOLD
    resolvedTreatMissingData := .NOT_BREACHING
    name := "OrdersStream-PutRecordsThrottled-" ++ d
    description := "Number of throttled PutRecords exceeded threshold of 50"
    dedupeKey := "PutRecordsThrottled"
    annot := { value := JSNumber.finite 50
               label := "OrdersStream-PutRecordsThrottled-" ++ d } }

/-- The definition produced for `fresh3600` on "OrdersStream" with the given
disambiguator. -/
def ordersFreshnessAlarmAt (d : String) : AlarmDefinition :=
  { metric := sampleFreshnessMetric
    resolvedThreshold := JSNumber.finite 3600
    resolvedComparisonOperator := .GREATER_THAN_THRESHOLD
    resolvedTreatMissingData := .MISSING
    name := "OrdersStream-Record-Max-Age-" ++ d
    description := "Max Age of Record in firehose is too high."
    dedupeKey := "MaxAgeOfRecordExceededInDeliveryStream"
    annot := { value := JSNumber.finite 3600
               label := "OrdersStream-Record-Max-Age-" ++ d } }

/-- The end-to-end scenario of the spec: `spec50` on "OrdersStream", no
disambiguator. -/
def ordersThrottledScenario : Except AlarmError (KinesisAlarmFactory × AlarmDefinition) :=
  (KinesisAlarmFactory.mk ordersFactory).addPutRecordsThrottledAlarm
    sampleThrottledMetric spec50 none

/-- A records-throttled Specification carrying a full name replacement. -/
def overriddenNameSpec : RecordsThrottledThreshold :=
  { maxRecordsThrottledThreshold := JSNumber.finite 50
    alarmNameOverride := some "CustomName" }

/-- Closed form of the records-throttled constructor loop: it threads the
central factory and appends exactly the created alarms' annotations and
definitions, touching no other collection. -/
theorem processRecordsThrottledAlarms_eq (metric : MetricWithAlarmSupport)
    (m : KinesisFirehoseMonitoring)
    (entries : List (String × RecordsThrottledThreshold)) :
    processRecordsThrottledAlarms metric m entries =
      (createAlarmSequence (recordsThrottledStep metric)
          m.kinesisAlarmFactory.alarmFactory entries).map
        (fun r =>
          { m with
            kinesisAlarmFactory := { alarmFactory := r.1 }
            recordCountAnnotations :=
              m.recordCountAnnotations ++ r.2.map AlarmDefinition.annot
            createdAlarmsList := m.createdAlarmsList ++ r.2 }) := by
  induction entries generalizing m with
  | nil =>
    simp [processRecordsThrottledAlarms, createAlarmSequence, Except.map]
  | cons e rest ih =>
    obtain ⟨dis, alarmProps⟩ := e
    simp only [processRecordsThrottledAlarms, KinesisAlarmFactory.addPutRecordsThrottledAlarm,
      createAlarmSequence, recordsThrottledStep]
    cases h : m.kinesisAlarmFactory.alarmFactory.addAlarm metric
        (addPutRecordsThrottledAlarmProps alarmProps (some dis)) with
    | error err => simp [Except.map]
    | ok fa =>
      obtain ⟨f', a⟩ := fa
      dsimp only
      rw [ih]
      cases h2 : createAlarmSequence (recordsThrottledStep metric) f' rest with
      | error err => simp [Except.map, h2]
      | ok r =>
        obtain ⟨f'', as⟩ := r
        simp [Except.map, h2]

/-- Closed form of the delivery-freshness constructor loop. -/
theorem processDeliveryFreshnessAlarms_eq (metric : MetricWithAlarmSupport)
    (m : KinesisFirehoseMonitoring)
    (entries : List (String × DataFreshnessThreshold)) :
    processDeliveryFreshnessAlarms metric m entries =
      (createAlarmSequence (deliveryFreshnessStep metric)
          m.kinesisAlarmFactory.alarmFactory entries).map
        (fun r =>
          { m with
            kinesisAlarmFactory := { alarmFactory := r.1 }
            ageAnnotations := m.ageAnnotations ++ r.2.map AlarmDefinition.annot
            createdAlarmsList := m.createdAlarmsList ++ r.2 }) := by
  induction entries generalizing m with
  | nil =>
    simp [processDeliveryFreshnessAlarms, createAlarmSequence, Except.map]
  | cons e rest ih =>
    obtain ⟨dis, alarmProps⟩ := e
    simp only [processDeliveryFreshnessAlarms, KinesisAlarmFactory.addOldAgeOfRecordAlarm,
      createAlarmSequence, deliveryFreshnessStep]
    cases h : m.kinesisAlarmFactory.alarmFactory.addAlarm metric
        (addOldAgeOfRecordAlarmProps alarmProps (some dis)) with
    | error err => simp [Except.map]
    | ok fa =>
      obtain ⟨f', a⟩ := fa
      dsimp only
      rw [ih]
      cases h2 : createAlarmSequence (deliveryFreshnessStep metric) f' rest with
      | error err => simp [Except.map, h2]
      | ok r =>
        obtain ⟨f'', as⟩ := r
        simp [Except.map, h2]

/-- Closed form of the whole constructor given that both alarm families
resolve successfully. -/
theorem construct_eq (f0 : AlarmFactory)
    (tm fm : MetricWithAlarmSupport) (name : String)
    (ts : List (String × RecordsThrottledThreshold))
    (fs : List (String × DataFreshnessThreshold)) (use : Bool)
    (f1 f2 : AlarmFactory) (as bs : List AlarmDefinition)
    (h1 : createAlarmSequence (recordsThrottledStep tm) f0 ts = .ok (f1, as))
    (h2 : createAlarmSequence (deliveryFreshnessStep fm) f1 fs = .ok (f2, bs)) :
    KinesisFirehoseMonitoring.construct f0 tm fm
      { deliveryStreamName := name
        addDeliveryFreshnessAlarm := fs
        addRecordsThrottledAlarm := ts
        useCreatedAlarms := use } =
      .ok { kinesisAlarmFactory := { alarmFactory := f2 }
            recordCountAnnotations := as.map AlarmDefinition.annot
            ageAnnotations := bs.map AlarmDefinition.annot
            createdAlarmsList := as ++ bs
            consumerCalls := if use then [as ++ bs] else [] } := by
  simp only [KinesisFirehoseMonitoring.construct, processRecordsThrottledAlarms_eq,
    processDeliveryFreshnessAlarms_eq]
  simp only [h1, Except.map]
  simp only [h2, Except.map]
  simp

/-- C1: for every Kinesis alarm operation and every Threshold Specification,
the comparison operator (resp. missing-data policy) in the argument passed to
the Alarm Factory equals the override when present and the alarm-kind default
when absent — `Option.getD` makes it exactly one of the two, override first. -/
theorem kinesis_override_precedence
    (p1 : MaxIteratorAgeThreshold) (p2 : DataFreshnessThreshold)
    (p3 p5 p6 : RecordsThrottledThreshold) (p4 : RecordsFailedThreshold)
    (d : Option String) (ds : String) :
    (addIteratorMaxAgeAlarmProps p1 d).comparisonOperator
        = p1.comparisonOperatorOverride.getD ComparisonOperator.GREATER_THAN_THRESHOLD
    ∧ (addIteratorMaxAgeAlarmProps p1 d).treatMissingData
        = p1.treatMissingDataOverride.getD TreatMissingData.MISSING
    ∧ (addOldAgeOfRecordAlarmProps p2 d).comparisonOperator
        = p2.comparisonOperatorOverride.getD ComparisonOperator.GREATER_THAN_THRESHOLD
    ∧ (addOldAgeOfRecordAlarmProps p2 d).treatMissingData
        = p2.treatMissingDataOverride.getD TreatMissingData.MISSING
    ∧ (addPutRecordsThrottledAlarmProps p3 d).comparisonOperator
        = p3.comparisonOperatorOverride.getD ComparisonOperator.GREATER_THAN_THRESHOLD
    ∧ (addPutRecordsThrottledAlarmProps p3 d).treatMissingData
        = p3.treatMissingDataOverride.getD TreatMissingData.NOT_BREACHING
    ∧ (addPutRecordsFailedAlarmProps p4 d).comparisonOperator
        = p4.comparisonOperatorOverride.getD ComparisonOperator.GREATER_THAN_THRESHOLD
    ∧ (addPutRecordsFailedAlarmProps p4 d).treatMissingData
        = p4.treatMissingDataOverride.getD TreatMissingData.NOT_BREACHING
    ∧ (addProvisionedReadThroughputExceededAlarmProps p5 ds).comparisonOperator
        = p5.comparisonOperatorOverride.getD ComparisonOperator.GREATER_THAN_THRESHOLD
    ∧ (addProvisionedReadThroughputExceededAlarmProps p5 ds).treatMissingData
        = p5.treatMissingDataOverride.getD TreatMissingData.NOT_BREACHING
    ∧ (addProvisionedWriteThroughputExceededAlarmProps p6 ds).comparisonOperator
        = p6.comparisonOperatorOverride.getD ComparisonOperator.GREATER_THAN_THRESHOLD
    ∧ (addProvisionedWriteThroughputExceededAlarmProps p6 ds).treatMissingData
        = p6.treatMissingDataOverride.getD TreatMissingData.NOT_BREACHING :=
  ⟨rfl, rfl, rfl, rfl, rfl, rfl, rfl, rfl, rfl, rfl, rfl, rfl⟩

/-- C3: every Kinesis operation's result equals handing the unresolved
Specification plus the kind constants to the central Alarm Factory, which alone
applies override-before-default precedence: the argument object each operation
builds is exactly `centralResolveAddAlarmProps` of its kind constants, so the
central `addAlarm` results coincide as well. -/
theorem kinesis_resolution_centralized
    (f : AlarmFactory) (metric : MetricWithAlarmSupport)
    (p1 : MaxIteratorAgeThreshold) (p2 : DataFreshnessThreshold)
    (p3 p5 p6 : RecordsThrottledThreshold) (p4 : RecordsFailedThreshold)
    (d : Option String) (ds : String) :
    addIteratorMaxAgeAlarmProps p1 d
        = centralResolveAddAlarmProps iteratorMaxAgeKind p1.maxAgeInMillis
            p1.toCustomAlarmThreshold d
    ∧ addOldAgeOfRecordAlarmProps p2 d
        = centralResolveAddAlarmProps oldAgeOfRecordKind p2.ageOfRecordThreshold
            p2.toCustomAlarmThreshold d
    ∧ addPutRecordsThrottledAlarmProps p3 d
        = centralResolveAddAlarmProps (putRecordsThrottledKind p3.maxRecordsThrottledThreshold)
            p3.maxRecordsThrottledThreshold p3.toCustomAlarmThreshold d
    ∧ addPutRecordsFailedAlarmProps p4 d
        = centralResolveAddAlarmProps (putRecordsFailedKind p4.maxRecordsFailedThreshold)
            p4.maxRecordsFailedThreshold p4.toCustomAlarmThreshold d
    ∧ addProvisionedReadThroughputExceededAlarmProps p5 ds
        = centralResolveAddAlarmProps (provisionedReadThroughputKind p5.maxRecordsThrottledThreshold)
            p5.maxRecordsThrottledThreshold p5.toCustomAlarmThreshold (some ds)
    ∧ addProvisionedWriteThroughputExceededAlarmProps p6 ds
        = centralResolveAddAlarmProps (provisionedWriteThroughputKind p6.maxRecordsThrottledThreshold)
            p6.maxRecordsThrottledThreshold p6.toCustomAlarmThreshold (some ds)
    ∧ f.addAlarm metric (addPutRecordsThrottledAlarmProps p3 d)
        = f.addAlarm metric
            (centralResolveAddAlarmProps (putRecordsThrottledKind p3.maxRecordsThrottledThreshold)
              p3.maxRecordsThrottledThreshold p3.toCustomAlarmThreshold d) :=
  ⟨rfl, rfl, rfl, rfl, rfl, rfl, rfl⟩

/-- C4: with no `treatMissingDataOverride`, the missing-data policy handed to
the Alarm Factory is the per-kind default — `MISSING` for the two freshness/age
kinds, `NOT_BREACHING` for the four rate/count kinds. -/
theorem kinesis_missing_data_defaults
    (p1 : MaxIteratorAgeThreshold) (p2 : DataFreshnessThreshold)
    (p3 p5 p6 : RecordsThrottledThreshold) (p4 : RecordsFailedThreshold)
    (d : Option String) (ds : String) :
    (addIteratorMaxAgeAlarmProps { p1 with treatMissingDataOverride := none } d).treatMissingData
        = TreatMissingData.MISSING
    ∧ (addOldAgeOfRecordAlarmProps { p2 with treatMissingDataOverride := none } d).treatMissingData
        = TreatMissingData.MISSING
    ∧ (addPutRecordsThrottledAlarmProps { p3 with treatMissingDataOverride := none } d).treatMissingData
        = TreatMissingData.NOT_BREACHING
    ∧ (addPutRecordsFailedAlarmProps { p4 with treatMissingDataOverride := none } d).treatMissingData
        = TreatMissingData.NOT_BREACHING
    ∧ (addProvisionedReadThroughputExceededAlarmProps
          { p5 with treatMissingDataOverride := none } ds).treatMissingData
        = TreatMissingData.NOT_BREACHING
    ∧ (addProvisionedWriteThroughputExceededAlarmProps
          { p6 with treatMissingDataOverride := none } ds).treatMissingData
        = TreatMissingData.NOT_BREACHING :=
  ⟨rfl, rfl, rfl, rfl, rfl, rfl⟩

/-- C2 counterexample: two delivery-freshness (old-age-of-record) alarms on two
different streams resolve to the SAME constant dedupe key
`MaxAgeOfRecordExceededInDeliveryStream`, not to different resource-scoped
keys as claimed. -/
theorem kinesis_dedupe_scoping_counterexample :
    ((alarmOfResult
        ((KinesisAlarmFactory.mk (AlarmFactory.mk "StreamA" [])).addOldAgeOfRecordAlarm
          sampleFreshnessMetric fresh3600 none)).map AlarmDefinition.dedupeKey
      = some "MaxAgeOfRecordExceededInDeliveryStream")
    ∧ ((alarmOfResult
        ((KinesisAlarmFactory.mk (AlarmFactory.mk "StreamB" [])).addOldAgeOfRecordAlarm
          sampleFreshnessMetric fresh3600 none)).map AlarmDefinition.dedupeKey
      = some "MaxAgeOfRecordExceededInDeliveryStream")
    ∧ ((alarmOfResult
        ((KinesisAlarmFactory.mk (AlarmFactory.mk "StreamA" [])).addOldAgeOfRecordAlarm
          sampleFreshnessMetric fresh3600 none)).map AlarmDefinition.dedupeKey
      = (alarmOfResult
        ((KinesisAlarmFactory.mk (AlarmFactory.mk "StreamB" [])).addOldAgeOfRecordAlarm
          sampleFreshnessMetric fresh3600 none)).map AlarmDefinition.dedupeKey) := by
  decide

/-- C2 amended: with no dedupe override, put-records-throttled alarms on any
two streams share the dedupe key, and old-age-of-record (delivery-freshness)
alarms on any two streams ALSO share their (constant, not resource-scoped)
dedupe key. -/
theorem kinesis_dedupe_grouping_amended (s1 s2 : String)
    (pa pb : RecordsThrottledThreshold) (qa qb : DataFreshnessThreshold)
    (da db ea eb : Option String)
    (h1 : pa.alarmDedupeStringOverride = none) (h2 : pb.alarmDedupeStringOverride = none)
    (h3 : qa.alarmDedupeStringOverride = none) (h4 : qb.alarmDedupeStringOverride = none) :
    resolveDedupeKey s1 (addPutRecordsThrottledAlarmProps pa da)
        = resolveDedupeKey s2 (addPutRecordsThrottledAlarmProps pb db)
    ∧ resolveDedupeKey s1 (addOldAgeOfRecordAlarmProps qa ea)
        = resolveDedupeKey s2 (addOldAgeOfRecordAlarmProps qb eb) := by
  constructor <;>
    simp [resolveDedupeKey, addPutRecordsThrottledAlarmProps, addOldAgeOfRecordAlarmProps,
      h1, h2, h3, h4]

/-- C2 amended, witness on "StreamA"/"StreamB" with override-free
Specifications. -/
theorem kinesis_dedupe_grouping_amended_witness :
    resolveDedupeKey "StreamA" (addPutRecordsThrottledAlarmProps spec50 none)
        = resolveDedupeKey "StreamB" (addPutRecordsThrottledAlarmProps spec50 none)
    ∧ resolveDedupeKey "StreamA" (addOldAgeOfRecordAlarmProps fresh3600 none)
        = resolveDedupeKey "StreamB" (addOldAgeOfRecordAlarmProps fresh3600 none) :=
  kinesis_dedupe_grouping_amended "StreamA" "StreamB" spec50 spec50 fresh3600 fresh3600
    none none none none rfl rfl rfl rfl

/-- C5: the records-throttled Specification with threshold 50, no overrides,
on "OrdersStream" yields operator greater-than, missing-data not-breaching,
name "OrdersStream-PutRecordsThrottled", a description containing "50", and
dedupe key "PutRecordsThrottled". -/
theorem kinesis_end_to_end_scenario :
    (alarmOfResult ordersThrottledScenario).map AlarmDefinition.resolvedComparisonOperator
        = some ComparisonOperator.GREATER_THAN_THRESHOLD
    ∧ (alarmOfResult ordersThrottledScenario).map AlarmDefinition.resolvedTreatMissingData
        = some TreatMissingData.NOT_BREACHING
    ∧ (alarmOfResult ordersThrottledScenario).map AlarmDefinition.name
        = some "OrdersStream-PutRecordsThrottled"
    ∧ descriptionContains "50" (alarmOfResult ordersThrottledScenario) = true
    ∧ (alarmOfResult ordersThrottledScenario).map AlarmDefinition.dedupeKey
        = some "PutRecordsThrottled" := by
  decide

/-- C6 counterexample: with `alarmNameOverride = "CustomName"`, supplying
disambiguator "shard-0" does NOT append "-shard-0" — the name stays
"CustomName", refuting the claim for every records-throttled Specification. -/
theorem kinesis_disambiguator_counterexample :
    ((alarmOfResult ((KinesisAlarmFactory.mk ordersFactory).addPutRecordsThrottledAlarm
        sampleThrottledMetric overriddenNameSpec (some "shard-0"))).map AlarmDefinition.name
      = some "CustomName")
    ∧ ((alarmOfResult ((KinesisAlarmFactory.mk ordersFactory).addPutRecordsThrottledAlarm
        sampleThrottledMetric overriddenNameSpec none)).map AlarmDefinition.name
      = some "CustomName")
    ∧ ((alarmOfResult ((KinesisAlarmFactory.mk ordersFactory).addPutRecordsThrottledAlarm
        sampleThrottledMetric overriddenNameSpec (some "shard-0"))).map AlarmDefinition.name
      ≠ ((alarmOfResult ((KinesisAlarmFactory.mk ordersFactory).addPutRecordsThrottledAlarm
          sampleThrottledMetric overriddenNameSpec none)).map AlarmDefinition.name).map
            (fun n => n ++ "-shard-0")) := by
  decide

/-- C6 amended: for every records-throttled Specification WITHOUT a name
override, a disambiguator only appends "-{disambiguator}" to the generated
name; the dedupe key, operator, missing-data policy, description and threshold
are identical to the undisambiguated case. -/
theorem kinesis_disambiguator_amended (s : String) (props : RecordsThrottledThreshold)
    (d : String) (h : props.alarmNameOverride = none) :
    resolveAlarmName s (addPutRecordsThrottledAlarmProps props (some d))
        = resolveAlarmName s (addPutRecordsThrottledAlarmProps props none) ++ "-" ++ d
    ∧ resolveDedupeKey s (addPutRecordsThrottledAlarmProps props (some d))
        = resolveDedupeKey s (addPutRecordsThrottledAlarmProps props none)
    ∧ resolveComparisonOperator (addPutRecordsThrottledAlarmProps props (some d))
        = resolveComparisonOperator (addPutRecordsThrottledAlarmProps props none)
    ∧ resolveTreatMissingData (addPutRecordsThrottledAlarmProps props (some d))
        = resolveTreatMissingData (addPutRecordsThrottledAlarmProps props none)
    ∧ resolveDescription (addPutRecordsThrottledAlarmProps props (some d))
        = resolveDescription (addPutRecordsThrottledAlarmProps props none)
    ∧ (addPutRecordsThrottledAlarmProps props (some d)).threshold
        = (addPutRecordsThrottledAlarmProps props none).threshold := by
  refine ⟨?_, rfl, rfl, rfl, rfl, rfl⟩
  simp only [resolveAlarmName, addPutRecordsThrottledAlarmProps, h, String.append_empty]
  exact (String.append_assoc _ "-" d).symm

/-- C6 amended, witness: `spec50` with disambiguator "shard-0" on
"OrdersStream". -/
theorem kinesis_disambiguator_amended_witness :
    resolveAlarmName "OrdersStream" (addPutRecordsThrottledAlarmProps spec50 (some "shard-0"))
        = resolveAlarmName "OrdersStream" (addPutRecordsThrottledAlarmProps spec50 none)
          ++ "-" ++ "shard-0"
    ∧ resolveDedupeKey "OrdersStream" (addPutRecordsThrottledAlarmProps spec50 (some "shard-0"))
        = resolveDedupeKey "OrdersStream" (addPutRecordsThrottledAlarmProps spec50 none) :=
  ⟨(kinesis_disambiguator_amended "OrdersStream" spec50 "shard-0" rfl).1,
   (kinesis_disambiguator_amended "OrdersStream" spec50 "shard-0" rfl).2.1⟩

/-- C9: a non-finite threshold makes the central factory fail with
`InvalidThresholdError` (returning no registration), and a finite threshold
with a non-colliding computed name always succeeds. -/
theorem kinesis_threshold_error_handling (f : AlarmFactory)
    (metric : MetricWithAlarmSupport) (p : AddAlarmProps) :
    (p.threshold.isFinite = false →
      f.addAlarm metric p = .error AlarmError.InvalidThresholdError)
    ∧ (p.threshold.isFinite = true →
        resolveAlarmName f.alarmScopeName p ∉ f.registeredNames →
        addAlarmSucceeds (f.addAlarm metric p) = true) := by
  constructor
  · intro h
    simp [AlarmFactory.addAlarm, h]
  · intro h1 h2
    simp [AlarmFactory.addAlarm, h1, h2, addAlarmSucceeds]

/-- C9 witness: a `NaN` threshold fails with `InvalidThresholdError`; the
valid `spec50` request on a fresh scope succeeds. -/
theorem kinesis_threshold_error_handling_witness :
    ((AlarmFactory.mk "OrdersStream" []).addAlarm sampleThrottledMetric
        (addPutRecordsThrottledAlarmProps { maxRecordsThrottledThreshold := JSNumber.nan } none)
      = .error AlarmError.InvalidThresholdError)
    ∧ addAlarmSucceeds ((AlarmFactory.mk "OrdersStream" []).addAlarm sampleThrottledMetric
        (addPutRecordsThrottledAlarmProps spec50 none)) = true :=
  ⟨(kinesis_threshold_error_handling (AlarmFactory.mk "OrdersStream" []) sampleThrottledMetric
      (addPutRecordsThrottledAlarmProps { maxRecordsThrottledThreshold := JSNumber.nan } none)).1
      rfl,
   (kinesis_threshold_error_handling (AlarmFactory.mk "OrdersStream" []) sampleThrottledMetric
      (addPutRecordsThrottledAlarmProps spec50 none)).2 rfl (by simp)⟩

/-- C10 counterexample: the `alarmDescription` handed to the Alarm Factory by
the records-throttled operation is NOT unaffected by the props — it
interpolates the threshold, so thresholds 50 and 51 give different
descriptions. -/
theorem kinesis_kind_constants_counterexample :
    (addPutRecordsThrottledAlarmProps spec50 none).alarmDescription
      ≠ (addPutRecordsThrottledAlarmProps
          { maxRecordsThrottledThreshold := JSNumber.finite 51 } none).alarmDescription := by
  decide

/-- C10 amended: each operation passes the kind-specific threshold field as
`threshold`; `alarmNameSuffix` and `alarmDedupeStringSuffix` are constants of
the operation; `alarmDescription` is the kind template, constant for the two
age kinds and depending only on the interpolated threshold for the other four;
the two provisioned-throughput operations pass no dedupe suffix and require a
disambiguator. -/
theorem kinesis_kind_constants_amended
    (p1 : MaxIteratorAgeThreshold) (p2 : DataFreshnessThreshold)
    (p3 p5 p6 : RecordsThrottledThreshold) (p4 : RecordsFailedThreshold)
    (d : Option String) (ds : String) :
    (addIteratorMaxAgeAlarmProps p1 d).threshold = p1.maxAgeInMillis
    ∧ (addIteratorMaxAgeAlarmProps p1 d).alarmNameSuffix = "Iterator-Age-Max"
    ∧ (addIteratorMaxAgeAlarmProps p1 d).alarmDescription = "Iterator Max Age is too high."
    ∧ (addIteratorMaxAgeAlarmProps p1 d).alarmDedupeStringSuffix
        = some "AnyDataStreamIteratorMaxAge"
    ∧ (addOldAgeOfRecordAlarmProps p2 d).threshold = p2.ageOfRecordThreshold
    ∧ (addOldAgeOfRecordAlarmProps p2 d).alarmNameSuffix = "Record-Max-Age"
    ∧ (addOldAgeOfRecordAlarmProps p2 d).alarmDescription
        = "Max Age of Record in firehose is too high."
    ∧ (addOldAgeOfRecordAlarmProps p2 d).alarmDedupeStringSuffix
        = some "MaxAgeOfRecordExceededInDeliveryStream"
    ∧ (addPutRecordsThrottledAlarmProps p3 d).threshold = p3.maxRecordsThrottledThreshold
    ∧ (addPutRecordsThrottledAlarmProps p3 d).alarmNameSuffix = "PutRecordsThrottled"
    ∧ (addPutRecordsThrottledAlarmProps p3 d).alarmDescription
        = "Number of throttled PutRecords exceeded threshold of "
          ++ p3.maxRecordsThrottledThreshold.render
    ∧ (addPutRecordsThrottledAlarmProps p3 d).alarmDedupeStringSuffix
        = some "PutRecordsThrottled"
    ∧ (addPutRecordsFailedAlarmProps p4 d).threshold = p4.maxRecordsFailedThreshold
    ∧ (addPutRecordsFailedAlarmProps p4 d).alarmNameSuffix = "PutRecordsFailed"
    ∧ (addPutRecordsFailedAlarmProps p4 d).alarmDescription
        = "Number of failed PutRecords exceeded threshold of "
          ++ p4.maxRecordsFailedThreshold.render
    ∧ (addPutRecordsFailedAlarmProps p4 d).alarmDedupeStringSuffix = some "PutRecordsFailed"
    ∧ (addProvisionedReadThroughputExceededAlarmProps p5 ds).threshold
        = p5.maxRecordsThrottledThreshold
    ∧ (addProvisionedReadThroughputExceededAlarmProps p5 ds).alarmNameSuffix
        = "ReadThroughputExceeded"
    ∧ (addProvisionedReadThroughputExceededAlarmProps p5 ds).alarmDescription
        = "Number of records resulting in read throughput capacity throttling reached the threshold of "
          ++ p5.maxRecordsThrottledThreshold.render ++ "."
    ∧ (addProvisionedReadThroughputExceededAlarmProps p5 ds).alarmDedupeStringSuffix = none
    ∧ (addProvisionedReadThroughputExceededAlarmProps p5 ds).disambiguator = some ds
    ∧ (addProvisionedWriteThroughputExceededAlarmProps p6 ds).threshold
        = p6.maxRecordsThrottledThreshold
    ∧ (addProvisionedWriteThroughputExceededAlarmProps p6 ds).alarmNameSuffix
        = "WriteThroughputExceeded"
    ∧ (addProvisionedWriteThroughputExceededAlarmProps p6 ds).alarmDescription
        = "Number of records resulting in write throughput capacity throttling reached the threshold of "
          ++ p6.maxRecordsThrottledThreshold.render ++ "."
    ∧ (addProvisionedWriteThroughputExceededAlarmProps p6 ds).alarmDedupeStringSuffix = none
    ∧ (addProvisionedWriteThroughputExceededAlarmProps p6 ds).disambiguator = some ds :=
  ⟨rfl, rfl, rfl, rfl, rfl, rfl, rfl, rfl, rfl, rfl, rfl, rfl, rfl, rfl, rfl, rfl, rfl, rfl,
    rfl, rfl, rfl, rfl, rfl, rfl, rfl, rfl⟩

/-- C7: when construction succeeds, `recordCountAnnotations` holds exactly the
annotations of the records-throttled family in mapping order and
`ageAnnotations` exactly those of the delivery-freshness family in mapping
order — the collections are never mixed across families. -/
theorem kinesis_annotation_family_ordering (f0 : AlarmFactory)
    (tm fm : MetricWithAlarmSupport) (name : String)
    (ts : List (String × RecordsThrottledThreshold))
    (fs : List (String × DataFreshnessThreshold)) (use : Bool)
    (f1 f2 : AlarmFactory) (as bs : List AlarmDefinition)
    (h1 : createAlarmSequence (recordsThrottledStep tm) f0 ts = .ok (f1, as))
    (h2 : createAlarmSequence (deliveryFreshnessStep fm) f1 fs = .ok (f2, bs)) :
    (KinesisFirehoseMonitoring.construct f0 tm fm
        { deliveryStreamName := name
          addDeliveryFreshnessAlarm := fs
          addRecordsThrottledAlarm := ts
          useCreatedAlarms := use }).map KinesisFirehoseMonitoring.recordCountAnnotations
      = .ok (as.map AlarmDefinition.annot)
    ∧ (KinesisFirehoseMonitoring.construct f0 tm fm
        { deliveryStreamName := name
          addDeliveryFreshnessAlarm := fs
          addRecordsThrottledAlarm := ts
          useCreatedAlarms := use }).map KinesisFirehoseMonitoring.ageAnnotations
      = .ok (bs.map AlarmDefinition.annot) := by
  rw [construct_eq f0 tm fm name ts fs use f1 f2 as bs h1 h2]
  exact ⟨rfl, rfl⟩

/-- C7 witness: disambiguators "a","b","c" for the records-throttled family
and "fresh" for the delivery-freshness family yield the family collections in
exactly that order. -/
theorem kinesis_annotation_family_ordering_witness :
    (KinesisFirehoseMonitoring.construct ordersFactory sampleThrottledMetric
        sampleFreshnessMetric
        { deliveryStreamName := "OrdersStream"
          addDeliveryFreshnessAlarm := [("fresh", fresh3600)]
          addRecordsThrottledAlarm := [("a", spec50), ("b", spec50), ("c", spec50)]
          useCreatedAlarms := true }).map KinesisFirehoseMonitoring.recordCountAnnotations
      = .ok ([ordersThrottledAlarmAt "a", ordersThrottledAlarmAt "b",
              ordersThrottledAlarmAt "c"].map AlarmDefinition.annot)
    ∧ (KinesisFirehoseMonitoring.construct ordersFactory sampleThrottledMetric
        sampleFreshnessMetric
        { deliveryStreamName := "OrdersStream"
          addDeliveryFreshnessAlarm := [("fresh", fresh3600)]
          addRecordsThrottledAlarm := [("a", spec50), ("b", spec50), ("c", spec50)]
          useCreatedAlarms := true }).map KinesisFirehoseMonitoring.ageAnnotations
      = .ok ([ordersFreshnessAlarmAt "fresh"].map AlarmDefinition.annot) :=
  kinesis_annotation_family_ordering ordersFactory sampleThrottledMetric
    sampleFreshnessMetric "OrdersStream"
    [("a", spec50), ("b", spec50), ("c", spec50)] [("fresh", fresh3600)] true
    (AlarmFactory.mk "OrdersStream"
      ["OrdersStream-PutRecordsThrottled-a", "OrdersStream-PutRecordsThrottled-b",
       "OrdersStream-PutRecordsThrottled-c"])
    (AlarmFactory.mk "OrdersStream"
      ["OrdersStream-PutRecordsThrottled-a", "OrdersStream-PutRecordsThrottled-b",
       "OrdersStream-PutRecordsThrottled-c", "OrdersStream-Record-Max-Age-fresh"])
    [ordersThrottledAlarmAt "a", ordersThrottledAlarmAt "b", ordersThrottledAlarmAt "c"]
    [ordersFreshnessAlarmAt "fresh"] rfl rfl

/-- C8: when construction succeeds, the created-alarms collection holds the
definitions of both families, and the consumer is invoked exactly once with
that full collection after both families are processed when it was supplied,
and never otherwise. -/
theorem kinesis_consumer_single_invocation (f0 : AlarmFactory)
    (tm fm : MetricWithAlarmSupport) (name : String)
    (ts : List (String × RecordsThrottledThreshold))
    (fs : List (String × DataFreshnessThreshold)) (use : Bool)
    (f1 f2 : AlarmFactory) (as bs : List AlarmDefinition)
    (h1 : createAlarmSequence (recordsThrottledStep tm) f0 ts = .ok (f1, as))
    (h2 : createAlarmSequence (deliveryFreshnessStep fm) f1 fs = .ok (f2, bs)) :
    (KinesisFirehoseMonitoring.construct f0 tm fm
        { deliveryStreamName := name
          addDeliveryFreshnessAlarm := fs
          addRecordsThrottledAlarm := ts
          useCreatedAlarms := use }).map KinesisFirehoseMonitoring.createdAlarmsList
      = .ok (as ++ bs)
    ∧ (KinesisFirehoseMonitoring.construct f0 tm fm
        { deliveryStreamName := name
          addDeliveryFreshnessAlarm := fs
          addRecordsThrottledAlarm := ts
          useCreatedAlarms := use }).map KinesisFirehoseMonitoring.consumerCalls
      = .ok (if use then [as ++ bs] else []) := by
  rw [construct_eq f0 tm fm name ts fs use f1 f2 as bs h1 h2]
  exact ⟨rfl, rfl⟩

/-- C8 witness: with a consumer supplied, exactly one consumer call occurs and
it receives the three throttled and one freshness definitions together. -/
theorem kinesis_consumer_single_invocation_witness :
    (KinesisFirehoseMonitoring.construct ordersFactory sampleThrottledMetric
        sampleFreshnessMetric
        { deliveryStreamName := "OrdersStream"
          addDeliveryFreshnessAlarm := [("fresh", fresh3600)]
          addRecordsThrottledAlarm := [("a", spec50), ("b", spec50), ("c", spec50)]
          useCreatedAlarms := true }).map KinesisFirehoseMonitoring.createdAlarmsList
      = .ok ([ordersThrottledAlarmAt "a", ordersThrottledAlarmAt "b",
              ordersThrottledAlarmAt "c"] ++ [ordersFreshnessAlarmAt "fresh"])
    ∧ (KinesisFirehoseMonitoring.construct ordersFactory sampleThrottledMetric
        sampleFreshnessMetric
        { deliveryStreamName := "OrdersStream"
          addDeliveryFreshnessAlarm := [("fresh", fresh3600)]
          addRecordsThrottledAlarm := [("a", spec50), ("b", spec50), ("c", spec50)]
          useCreatedAlarms := true }).map KinesisFirehoseMonitoring.consumerCalls
      = .ok [[ordersThrottledAlarmAt "a", ordersThrottledAlarmAt "b",
              ordersThrottledAlarmAt "c"] ++ [ordersFreshnessAlarmAt "fresh"]] :=
  kinesis_consumer_single_invocation ordersFactory sampleThrottledMetric
    sampleFreshnessMetric "OrdersStream"
    [("a", spec50), ("b", spec50), ("c", spec50)] [("fresh", fresh3600)] true
    (AlarmFactory.mk "OrdersStream"
      ["OrdersStream-PutRecordsThrottled-a", "OrdersStream-PutRecordsThrottled-b",
       "OrdersStream-PutRecordsThrottled-c"])
    (AlarmFactory.mk "OrdersStream"
      ["OrdersStream-PutRecordsThrottled-a", "OrdersStream-PutRecordsThrottled-b",
       "OrdersStream-PutRecordsThrottled-c", "OrdersStream-Record-Max-Age-fresh"])
    [ordersThrottledAlarmAt "a", ordersThrottledAlarmAt "b", ordersThrottledAlarmAt "c"]
    [ordersFreshnessAlarmAt "fresh"] rfl rfl

end CdkMonitoring
